import Mathlib

/-!
Shallow embedding of the authentication subsystem of
`src/routes/auth.py` (FastAPI backend boilerplate), and proofs of the
specification claims about it.

Modelling conventions:
* Python `str(n)` / `int(s)` for decimal integers are modelled by
  `pyStrNat` / `pyInt` (fuel-based, structurally recursive so that the
  kernel can evaluate them).
* The passlib bcrypt backend (`CryptContext(schemes=["bcrypt"])`) is an
  external primitive.  A stored hash string is modelled by `StoredHash`:
  either a well-formed bcrypt hash (which records its salt and digest,
  exactly the information the string format carries) or an arbitrary
  string that passlib cannot identify as a hash.  The bcrypt key
  derivation itself is modelled by the deterministic function
  `bcryptDigest` of salt and password; per-call salt randomness is made
  explicit as a `salt` argument to `hash_password`.  passlib's
  `CryptContext.verify` raises `UnknownHashError` on a hash it cannot
  identify; the model returns `Except`.
* The python-jose JWT codec is modelled structurally: a token is its
  header (`alg`), payload (`sub`, `username`, `exp` claims) and
  signature; the base64/JSON serialization is an invertible wrapper the
  claims do not touch.  `jwt.decode` checks, in order: the declared
  algorithm against the allowed list, the signature, then the `exp`
  claim against the current time (python-jose raises
  `ExpiredSignatureError` when `exp < now`).  HMAC-SHA256 is modelled
  by the deterministic function `hmacSig` of key and signed content.
* Database state (`users` table) is passed explicitly; route handlers
  return the possibly-updated state.  Python exceptions escaping a
  function are modelled with `Except`.
-/

deriving instance DecidableEq for Except

namespace AuthSpec

/-! ## Python `str` / `int` on decimal integers -/

/-- The decimal digit character for `d` (Python's digit rendering). -/
def digitChar (d : Nat) : Char := Char.ofNat (48 + d)

/-- Numeric value of a decimal digit character, `none` for a non-digit. -/
def digitVal? (c : Char) : Option Nat :=
  if 48 ≤ c.toNat ∧ c.toNat ≤ 57 then some (c.toNat - 48) else none

/-- Little-endian decimal digits of `n`, with explicit fuel (structural
recursion so the kernel can reduce it; `fuel ≥ n` suffices). -/
def natDigitsAux : Nat → Nat → List Nat
  | 0, _ => []
  | _ + 1, 0 => []
  | fuel + 1, n + 1 => (n + 1) % 10 :: natDigitsAux fuel ((n + 1) / 10)

/-- Model of Python `str` on a natural number. -/
def pyStrNat (n : Nat) : String :=
  if n = 0 then "0" else String.mk ((natDigitsAux n n).reverse.map digitChar)

/-- Value of a big-endian digit list. -/
def valBE (ds : List Nat) : Nat := ds.foldl (fun a d => a * 10 + d) 0

/-- Digit values of a character list; `none` if any is not a digit. -/
def digitVals? : List Char → Option (List Nat)
  | [] => some []
  | c :: cs =>
    match digitVal? c, digitVals? cs with
    | some d, some ds => some (d :: ds)
    | _, _ => none

/-- Parse a nonempty all-digit character list as a natural number. -/
def parseNatDigits (cs : List Char) : Option Nat :=
  if cs.isEmpty then none
  else (digitVals? cs).map valBE

/-- Model of Python `int` on a string: optional leading minus sign then
decimal digits; `none` models `ValueError`. -/
def pyInt (s : String) : Option Int :=
  match s.data with
  | [] => none
  | c :: cs =>
    if c = '-' then (parseNatDigits cs).map (fun n => -(n : Int))
    else (parseNatDigits (c :: cs)).map (fun n => (n : Int))

/-! ## Credential hasher (`hash_password` / `verify_password`,
src/routes/auth.py lines 69-73, delegating to passlib bcrypt) -/

/-- A stored password hash string, as passlib's identification step sees
it: either a well-formed bcrypt hash (carrying its salt and digest) or a
string passlib cannot identify as any known hash. -/
inductive StoredHash
  | bcrypt (salt : Nat) (digest : Nat)
  | malformed (s : String)
deriving DecidableEq

/-- Python exceptions escaping the modelled functions. -/
inductive Exc
  /-- FastAPI `HTTPException(status_code, detail)`. -/
  | http (status_code : Nat) (detail : String)
  /-- `ValueError` (e.g. from `int()` on a non-decimal string). -/
  | valueError
  /-- passlib `UnknownHashError` from `CryptContext.verify`. -/
  | unknownHash
deriving DecidableEq

/-- Model of the bcrypt key-derivation primitive: a deterministic
function of salt and password (the properties proved here depend only on
determinism, not on any cryptographic structure). -/
def bcryptDigest (salt : Nat) (pw : String) : Nat :=
  pw.data.foldl (fun a c => a * 257 + c.toNat + 1) (salt + 1)

/-- `hash_password` (line 69): `pwd_context.hash(password)` draws a
fresh random salt; the randomness is the explicit `salt` argument. -/
def hash_password (salt : Nat) (password : String) : StoredHash :=
  .bcrypt salt (bcryptDigest salt password)

/-- `verify_password` (line 72): `pwd_context.verify` identifies the
hash, then recomputes the digest with the stored salt and compares; it
raises `UnknownHashError` when the stored hash is not a recognizable
hash string. -/
def verify_password (plain_password : String) (hashed_password : StoredHash) :
    Except Exc Bool :=
  match hashed_password with
  | .bcrypt salt digest => .ok (bcryptDigest salt plain_password == digest)
  | .malformed _ => .error .unknownHash

/-! ## Token codec (python-jose, lines 26-28 and 75-90) -/

/-- `ALGORITHM = "HS256"` (line 27). -/
def ALGORITHM : String := "HS256"

/-- `ACCESS_TOKEN_EXPIRE_MINUTES = 30` (line 28). -/
def ACCESS_TOKEN_EXPIRE_MINUTES : Nat := 30

/-- JWT header: the declared signing algorithm. -/
structure Header where
  alg : String
deriving DecidableEq

/-- JWT payload: the claims the code reads or writes (`sub`,
`username`, `exp`); absent claims are `none`. -/
structure Payload where
  sub : Option String
  username : Option String
  exp : Option Int
deriving DecidableEq

/-- Numeric code of a string (deterministic stand-in for hashing its
bytes). -/
def strCode (s : String) : Nat :=
  s.data.foldl (fun a c => a * 311 + c.toNat + 1) 7

def optStrCode : Option String → Nat
  | none => 0
  | some s => strCode s + 1

def optIntCode : Option Int → Nat
  | none => 0
  | some i => 2 * i.natAbs + (if i < 0 then 1 else 0) + 1

/-- Model of HMAC-SHA256 over the serialized header and payload with the
given key: a deterministic function (the claims proved here depend only
on determinism). -/
def hmacSig (key : String) (h : Header) (p : Payload) : Nat :=
  strCode key * 1000003 + strCode h.alg * 101 + optStrCode p.sub * 103 +
    optStrCode p.username * 107 + optIntCode p.exp * 109

/-- A JWT, structurally: header, payload, signature. -/
structure Token where
  header : Header
  payload : Payload
  sig : Nat
deriving DecidableEq

/-- python-jose error classes relevant here (all subclasses of
`JWTError`, which `verify_token` catches). -/
inductive JWTError
  | invalidAlgorithm
  | invalidSignature
  | expiredSignature
deriving DecidableEq

/-- `jose.jwt.encode(claims, key, algorithm)`: sign the payload. -/
def jwtEncode (claims : Payload) (key : String) (algorithm : String) : Token :=
  { header := ⟨algorithm⟩, payload := claims,
    sig := hmacSig key ⟨algorithm⟩ claims }

/-- `jose.jwt.decode(token, key, algorithms)`: reject if the declared
algorithm is not in the allowed list; else reject on signature mismatch;
else reject with `ExpiredSignatureError` if the `exp` claim is in the
past (`exp < now`); else return the claims. -/
def jwtDecode (token : Token) (key : String) (algorithms : List String)
    (now : Int) : Except JWTError Payload :=
  if ¬ algorithms.contains token.header.alg then .error .invalidAlgorithm
  else if token.sig ≠ hmacSig key token.header token.payload then
    .error .invalidSignature
  else
    match token.payload.exp with
    | some e => if e < now then .error .expiredSignature else .ok token.payload
    | none => .ok token.payload

/-- The claims dict passed to `create_access_token` by its two call
sites: `{"sub": str(user.id), "username": user.username}` (the function
itself copies the dict and overwrites `exp`). -/
structure ClaimsData where
  sub : Option String
  username : Option String
deriving DecidableEq

/-- `create_access_token` (line 75): copy the claims, set
`exp = now + ACCESS_TOKEN_EXPIRE_MINUTES minutes`, sign with the process
secret under `ALGORITHM`. -/
def create_access_token (key : String) (data : ClaimsData) (now : Int) : Token :=
  jwtEncode
    { sub := data.sub, username := data.username,
      exp := some (now + ACCESS_TOKEN_EXPIRE_MINUTES * 60) }
    key ALGORITHM

/-- The dict `verify_token` returns on success:
`{"user_id": int(sub), "username": username}`. -/
structure TokenData where
  user_id : Int
  username : Option String
deriving DecidableEq

/-- `verify_token` (line 81): decode with the pinned algorithm list;
any `JWTError` yields `None`; a missing `sub` yields `None`; otherwise
`int(sub)` is taken — which raises `ValueError` (NOT caught by the
`except JWTError` clause) when `sub` is not a decimal-integer string. -/
def verify_token (key : String) (token : Token) (now : Int) :
    Except Exc (Option TokenData) :=
  match jwtDecode token key [ALGORITHM] now with
  | .error _ => .ok none
  | .ok payload =>
    match payload.sub with
    | none => .ok none
    | some s =>
      match pyInt s with
      | none => .error .valueError
      | some n => .ok (some { user_id := n, username := payload.username })

/-! ## User directory (SQLAlchemy `User` model, lines 32-40) -/

/-- A row of the `users` table. -/
structure User where
  id : Nat
  username : String
  email : String
  hashed_password : StoredHash
  is_active : Bool
  created_at : Int
deriving DecidableEq

/-- Database state: the `users` table (in insertion order) and the next
autoincrement id. -/
structure DB where
  users : List User
  nextId : Nat
deriving DecidableEq

/-- `db.query(User).filter(User.username == u).first()`. -/
def DB.findByUsername (db : DB) (username : String) : Option User :=
  db.users.find? (fun u => u.username == username)

/-- `db.query(User).filter(User.email == e).first()`. -/
def DB.findByEmail (db : DB) (email : String) : Option User :=
  db.users.find? (fun u => u.email == email)

/-- `db.query(User).filter(User.id == i).first()` (the id compared is
the `int` coming out of `verify_token`). -/
def DB.findById (db : DB) (i : Int) : Option User :=
  db.users.find? (fun u => ((u.id : Int)) == i)

/-! ## Authentication gate (`get_current_user`, lines 93-111) -/

/-- The `credentials_exception` of `get_current_user` (line 97). -/
def credentials_exception : Exc :=
  .http 401 "Could not validate credentials"

/-- `get_current_user` (line 93): verify the bearer token (a
`ValueError` escaping `verify_token` propagates); `None` claims raise
the 401 `credentials_exception`; then the subject must exist in the
directory; the found user is returned — note the code performs no
`is_active` check here. -/
def get_current_user (key : String) (db : DB) (token : Token) (now : Int) :
    Except Exc User :=
  match verify_token key token now with
  | .error e => .error e
  | .ok none => .error credentials_exception
  | .ok (some token_data) =>
    match db.findById token_data.user_id with
    | none => .error credentials_exception
    | some user => .ok user

/-! ## Routes (signup / login / logout, lines 114-176) -/

/-- Signup request body. -/
structure UserCreate where
  username : String
  email : String
  password : String
deriving DecidableEq

/-- Login request body. -/
structure UserLogin where
  username : String
  password : String
deriving DecidableEq

/-- `UserResponse.from_orm(user)`: the public user view. -/
structure UserResponse where
  id : Nat
  username : String
  email : String
  is_active : Bool
  created_at : Int
deriving DecidableEq

def UserResponse.from_orm (u : User) : UserResponse :=
  { id := u.id, username := u.username, email := u.email,
    is_active := u.is_active, created_at := u.created_at }

/-- The token envelope returned by signup and login. -/
structure TokenResponse where
  access_token : Token
  token_type : String
  expires_in : Nat
  user : UserResponse
deriving DecidableEq

/-- `signup` (line 114): reject 400 "Username already registered" if
the username exists; else reject 400 "Email already registered" if the
email exists; else hash the password (fresh salt), insert the row
(`is_active` column default `True`, `created_at` set by the database),
and issue a token for `{"sub": str(id), "username": username}`.  The
returned `DB` is the state after the request. -/
def signup (key : String) (db : DB) (user_data : UserCreate) (salt : Nat)
    (now : Int) : Except Exc TokenResponse × DB :=
  if (db.findByUsername user_data.username).isSome then
    (.error (.http 400 "Username already registered"), db)
  else if (db.findByEmail user_data.email).isSome then
    (.error (.http 400 "Email already registered"), db)
  else
    let hashed := hash_password salt user_data.password
    let db_user : User :=
      { id := db.nextId, username := user_data.username,
        email := user_data.email, hashed_password := hashed,
        is_active := true, created_at := now }
    let db' : DB := { users := db.users ++ [db_user], nextId := db.nextId + 1 }
    let tok := create_access_token key
      ⟨some (pyStrNat db_user.id), some db_user.username⟩ now
    (.ok { access_token := tok, token_type := "bearer",
           expires_in := ACCESS_TOKEN_EXPIRE_MINUTES * 60,
           user := .from_orm db_user }, db')

/-- `login` (line 147): look up by username; absent user OR failed
password verification both raise the same uniform
401 "Incorrect username or password"; an inactive user raises
400 "Inactive user"; else issue a fresh token.  (A `UnknownHashError`
from `verify_password` would propagate.) -/
def login (key : String) (db : DB) (login_data : UserLogin) (now : Int) :
    Except Exc TokenResponse :=
  match db.findByUsername login_data.username with
  | none => .error (.http 401 "Incorrect username or password")
  | some user =>
    match verify_password login_data.password user.hashed_password with
    | .error e => .error e
    | .ok ok =>
      if ¬ ok then .error (.http 401 "Incorrect username or password")
      else if ¬ user.is_active then .error (.http 400 "Inactive user")
      else
        .ok { access_token := create_access_token key
                ⟨some (pyStrNat user.id), some user.username⟩ now,
              token_type := "bearer",
              expires_in := ACCESS_TOKEN_EXPIRE_MINUTES * 60,
              user := .from_orm user }

/-- `logout` (line 174): guarded by `get_current_user`; on success it
only builds a message.  The returned `DB` is the state after the
request. -/
def logoutRoute (key : String) (db : DB) (token : Token) (now : Int) :
    Except Exc String × DB :=
  match get_current_user key db token now with
  | .error e => (.error e, db)
  | .ok u => (.ok ("User " ++ u.username ++ " logged out successfully"), db)

/-! ## Helper lemmas: the decimal printer/parser round trip -/

/-- Value of a little-endian digit list. -/
def valLE : List Nat → Nat
  | [] => 0
  | d :: ds => d + 10 * valLE ds

theorem digitVal_digitChar : ∀ d < 10, digitVal? (digitChar d) = some d := by
  decide

theorem digitChar_ne_minus : ∀ d < 10, digitChar d ≠ '-' := by
  decide

theorem natDigitsAux_lt (fuel n : Nat) : ∀ d ∈ natDigitsAux fuel n, d < 10 := by
  induction fuel generalizing n with
  | zero => intro d hd; simp [natDigitsAux] at hd
  | succ fuel ih =>
    match n with
    | 0 => intro d hd; simp [natDigitsAux] at hd
    | m + 1 =>
      intro d hd
      rcases List.mem_cons.mp hd with h | h
      · subst h; exact Nat.mod_lt _ (by norm_num)
      · exact ih _ d h

theorem valLE_natDigitsAux (fuel n : Nat) (h : n ≤ fuel) :
    valLE (natDigitsAux fuel n) = n := by
  induction fuel generalizing n with
  | zero =>
    have : n = 0 := Nat.le_zero.mp h
    subst this; rfl
  | succ fuel ih =>
    match n with
    | 0 => rfl
    | m + 1 =>
      have hdiv : (m + 1) / 10 ≤ fuel := by
        have := Nat.div_lt_self (Nat.succ_pos m) (by norm_num : 1 < 10)
        omega
      simp only [natDigitsAux, valLE, ih _ hdiv]
      omega

theorem valBE_reverse (ds : List Nat) : valBE ds.reverse = valLE ds := by
  induction ds with
  | nil => rfl
  | cons d ds ih =>
    simp only [List.reverse_cons, valBE, List.foldl_append, List.foldl] at *
    simp only [valLE, ← ih, valBE]
    omega

theorem digitVals_map_digitChar (ds : List Nat) (h : ∀ d ∈ ds, d < 10) :
    digitVals? (ds.map digitChar) = some ds := by
  induction ds with
  | nil => rfl
  | cons d ds ih =>
    have hd : digitVal? (digitChar d) = some d :=
      digitVal_digitChar d (h d (List.mem_cons_self d ds))
    have ihh := ih (fun x hx => h x (List.mem_cons_of_mem d hx))
    simp [digitVals?, hd, ihh]

theorem pyInt_mk_digits (ds : List Nat) (hne : ds ≠ []) (h : ∀ d ∈ ds, d < 10) :
    pyInt (String.mk (ds.map digitChar)) = some ((valBE ds : Nat) : Int) := by
  match ds with
  | [] => exact absurd rfl hne
  | d :: rest =>
    have hd10 : d < 10 := h d (List.mem_cons_self d rest)
    have hcne : digitChar d ≠ '-' := digitChar_ne_minus d hd10
    show pyInt (String.mk (digitChar d :: rest.map digitChar)) = _
    unfold pyInt
    simp only [if_neg hcne]
    have : parseNatDigits (digitChar d :: rest.map digitChar) =
        some (valBE (d :: rest)) := by
      have := digitVals_map_digitChar (d :: rest) h
      simp only [List.map_cons] at this
      unfold parseNatDigits
      simp [this]
    simp [this]

theorem natDigitsAux_ne_nil (fuel m : Nat) :
    natDigitsAux (fuel + 1) (m + 1) ≠ [] := by
  simp [natDigitsAux]

/-- Python round trip: `int(str(n)) == n` for a natural number. -/
theorem pyInt_pyStrNat (n : Nat) : pyInt (pyStrNat n) = some (n : Int) := by
  rcases Nat.eq_zero_or_pos n with h0 | h0
  · subst h0; rfl
  · have h0' : n ≠ 0 := Nat.pos_iff_ne_zero.mp h0
    obtain ⟨m, rfl⟩ : ∃ m, n = m + 1 := ⟨n - 1, by omega⟩
    have hlt := natDigitsAux_lt (m + 1) (m + 1)
    have hne : (natDigitsAux (m + 1) (m + 1)).reverse ≠ [] := by
      intro hcontra
      exact natDigitsAux_ne_nil m m (List.reverse_eq_nil_iff.mp hcontra)
    have hval : valLE (natDigitsAux (m + 1) (m + 1)) = m + 1 :=
      valLE_natDigitsAux (m + 1) (m + 1) le_rfl
    unfold pyStrNat
    rw [if_neg h0']
    rw [pyInt_mk_digits _ hne (fun d hd => hlt d (List.mem_reverse.mp hd))]
    rw [valBE_reverse, hval]

/-! ## Concrete sample scenes (used by witnesses and counterexamples) -/

/-- An active registered user (as signup would create it). -/
def sampleActiveUser : User :=
  { id := 1, username := "alice", email := "a@x.com",
    hashed_password := hash_password 5 "pw1", is_active := true,
    created_at := 0 }

/-- A directory holding only the active sample user. -/
def sampleDB : DB := { users := [sampleActiveUser], nextId := 2 }

/-- The same user but deactivated (`is_active = False`). -/
def sampleInactiveUser : User :=
  { id := 1, username := "alice", email := "a@x.com",
    hashed_password := hash_password 5 "pw1", is_active := false,
    created_at := 0 }

/-- A directory holding only the inactive sample user. -/
def sampleInactiveDB : DB := { users := [sampleInactiveUser], nextId := 2 }

/-- A token issued for the sample user at time 0 with the process
secret "k" (exactly what login/signup would produce). -/
def sampleToken : Token :=
  create_access_token "k" ⟨some (pyStrNat 1), some "alice"⟩ 0

/-! ## Claim theorems -/

/-- Claim C1, counterexample: with a validly signed, unexpired token for
an existing user whose `is_active` flag is false, `get_current_user`
does NOT reject the request — it returns the inactive user, because the
gate never consults `is_active`. -/
theorem get_current_user_inactive_counterexample :
    sampleInactiveUser.is_active = false ∧
    verify_token "k" sampleToken 10 = .ok (some ⟨1, some "alice"⟩) ∧
    get_current_user "k" sampleInactiveDB sampleToken 10 =
      .ok sampleInactiveUser := by
  decide

/-- Claim C1, amended: the authentication gate performs no `is_active`
check.  Whenever the token verifies and the subject id resolves to an
existing user — even one whose `is_active` flag is false — the gate
returns that user as the principal instead of failing
Unauthorized/Forbidden.  (Only `login` rejects inactive users.) -/
theorem get_current_user_ignores_is_active (key : String) (db : DB)
    (tok : Token) (now : Int) (td : TokenData) (u : User)
    (hv : verify_token key tok now = .ok (some td))
    (hf : db.findById td.user_id = some u)
    (_hinactive : u.is_active = false) :
    get_current_user key db tok now = .ok u := by
  unfold get_current_user
  simp only [hv, hf]

/-- Claim C1, witness for the amended theorem at the concrete scene. -/
theorem get_current_user_ignores_is_active_witness :
    get_current_user "k" sampleInactiveDB sampleToken 10 =
      .ok sampleInactiveUser :=
  get_current_user_ignores_is_active "k" sampleInactiveDB sampleToken 10
    ⟨1, some "alice"⟩ sampleInactiveUser (by decide) (by decide) (by decide)

/-- Claim C2: a login whose username is absent from the directory and a
login whose username exists but whose password fails verification both
produce the identical 401 response with the uniform message
"Incorrect username or password". -/
theorem login_no_username_enumeration (key : String) (db : DB)
    (ld1 ld2 : UserLogin) (now1 now2 : Int) (u : User)
    (h1 : db.findByUsername ld1.username = none)
    (h2 : db.findByUsername ld2.username = some u)
    (h3 : verify_password ld2.password u.hashed_password = .ok false) :
    login key db ld1 now1 =
      .error (.http 401 "Incorrect username or password") ∧
    login key db ld2 now2 =
      .error (.http 401 "Incorrect username or password") ∧
    login key db ld1 now1 = login key db ld2 now2 := by
  have e1 : login key db ld1 now1 =
      .error (.http 401 "Incorrect username or password") := by
    unfold login
    rw [h1]
  have e2 : login key db ld2 now2 =
      .error (.http 401 "Incorrect username or password") := by
    unfold login
    simp only [h2, h3]
    simp
  exact ⟨e1, e2, e1.trans e2.symm⟩

/-- Claim C2, witness: nonexistent user "bob" vs existing "alice" with
a wrong password, against the concrete directory. -/
theorem login_no_username_enumeration_witness :
    login "k" sampleDB ⟨"bob", "pw1"⟩ 3 =
      .error (.http 401 "Incorrect username or password") ∧
    login "k" sampleDB ⟨"alice", "wrong"⟩ 4 =
      .error (.http 401 "Incorrect username or password") ∧
    login "k" sampleDB ⟨"bob", "pw1"⟩ 3 = login "k" sampleDB ⟨"alice", "wrong"⟩ 4 :=
  login_no_username_enumeration "k" sampleDB ⟨"bob", "pw1"⟩ ⟨"alice", "wrong"⟩
    3 4 sampleActiveUser (by decide) (by decide) (by decide)

/-- Claim C3: round trip — decoding a token produced by
`create_access_token` for claims `{"sub": str(id), "username": uname}`
with `verify_token` (same process secret) returns the same subject id as
`user_id` and the same username, provided the current time is still
before the token's `exp`. -/
theorem token_round_trip (key uname : String) (id : Nat) (now now2 : Int)
    (h : now2 < now + (ACCESS_TOKEN_EXPIRE_MINUTES : Int) * 60) :
    verify_token key
        (create_access_token key ⟨some (pyStrNat id), some uname⟩ now) now2 =
      .ok (some ⟨(id : Int), some uname⟩) := by
  unfold verify_token create_access_token jwtEncode jwtDecode
  have hc : [ALGORITHM].contains ALGORITHM = true := by simp
  simp only [hc, not_true, if_false, ite_not]
  simp only [ne_eq, not_true_eq_false, if_false, if_true]
  have hexp : ¬ (now + (ACCESS_TOKEN_EXPIRE_MINUTES : Int) * 60 < now2) := by
    omega
  rw [if_neg hexp]
  simp only [pyInt_pyStrNat id]

/-- Claim C3, witness: round trip for user id 7, username "alice",
issued at time 0, verified at time 100. -/
theorem token_round_trip_witness :
    verify_token "k"
        (create_access_token "k" ⟨some (pyStrNat 7), some "alice"⟩ 0) 100 =
      .ok (some ⟨(7 : Int), some "alice"⟩) :=
  token_round_trip "k" "alice" 7 0 100 (by norm_num [ACCESS_TOKEN_EXPIRE_MINUTES])

/-- Claim C4: every token whose `exp` claim lies in the past fails
verification — whatever its signature or declared algorithm —
so `verify_token` returns `None` (never claims) for it; and when the
declared algorithm and the signature are in fact valid, the decode
error is specifically the expiry error (`ExpiredSignatureError`). -/
theorem expired_token_rejected (key : String) (tok : Token) (now e : Int)
    (hexp : tok.payload.exp = some e) (hpast : e < now) :
    verify_token key tok now = .ok none ∧
    ([ALGORITHM].contains tok.header.alg = true →
      tok.sig = hmacSig key tok.header tok.payload →
      jwtDecode tok key [ALGORITHM] now = .error .expiredSignature) := by
  constructor
  · unfold verify_token jwtDecode
    rw [hexp]
    by_cases h1 : [ALGORITHM].contains tok.header.alg
    · rw [if_neg (not_not_intro h1)]
      by_cases h2 : tok.sig = hmacSig key tok.header tok.payload
      · rw [if_neg (not_not_intro h2)]
        dsimp only
        rw [if_pos hpast]
      · rw [if_pos h2]
    · rw [if_pos h1]
  · intro halg hsig
    unfold jwtDecode
    rw [hexp, if_neg (not_not_intro halg), if_neg (not_not_intro hsig)]
    dsimp only
    rw [if_pos hpast]

/-- Claim C4, witness: a genuinely signed token issued at time 0
(expiry 1800) verified at time 99999 yields `None`, the decode error
being the expiry error. -/
theorem expired_token_rejected_witness :
    verify_token "k"
        (create_access_token "k" ⟨some (pyStrNat 1), some "alice"⟩ 0) 99999 =
      .ok none ∧
    jwtDecode (create_access_token "k" ⟨some (pyStrNat 1), some "alice"⟩ 0)
        "k" [ALGORITHM] 99999 = .error .expiredSignature :=
  ⟨(expired_token_rejected "k"
      (create_access_token "k" ⟨some (pyStrNat 1), some "alice"⟩ 0) 99999 1800
      (by decide) (by decide)).1,
   (expired_token_rejected "k"
      (create_access_token "k" ⟨some (pyStrNat 1), some "alice"⟩ 0) 99999 1800
      (by decide) (by decide)).2 (by decide) (by decide)⟩

/-- Claim C5: the codec pins the single algorithm `HS256`
(`ALGORITHM = "HS256"`), and any token declaring a different algorithm
is rejected by `jwt.decode` with an algorithm error before its claims
are decoded — whatever its payload and signature — so `verify_token`
returns `None` for it. -/
theorem algorithm_pinned (key : String) (tok : Token) (now : Int)
    (h : tok.header.alg ≠ ALGORITHM) :
    ALGORITHM = "HS256" ∧
    jwtDecode tok key [ALGORITHM] now = .error .invalidAlgorithm ∧
    verify_token key tok now = .ok none := by
  have hc : ¬ ([ALGORITHM].contains tok.header.alg = true) := by
    simp only [List.contains_cons, List.contains_nil, Bool.or_false,
      beq_iff_eq]
    exact fun hh => h hh
  have hd : jwtDecode tok key [ALGORITHM] now = .error .invalidAlgorithm := by
    unfold jwtDecode
    rw [if_pos hc]
  refine ⟨rfl, hd, ?_⟩
  unfold verify_token
  rw [hd]

/-- Claim C5, witness: a token declaring algorithm "none" over a
plausible payload is rejected outright. -/
theorem algorithm_pinned_witness :
    ALGORITHM = "HS256" ∧
    jwtDecode ⟨⟨"none"⟩, ⟨some "1", some "alice", some 99999⟩, 0⟩ "k"
        [ALGORITHM] 5 = .error .invalidAlgorithm ∧
    verify_token "k" ⟨⟨"none"⟩, ⟨some "1", some "alice", some 99999⟩, 0⟩ 5 =
      .ok none :=
  algorithm_pinned "k" ⟨⟨"none"⟩, ⟨some "1", some "alice", some 99999⟩, 0⟩ 5
    (by decide)

/-- Claim C6: signup checks duplicates in the fixed order username
first, then email — an existing username yields
400 "Username already registered"; otherwise an existing email yields
400 "Email already registered" — and in either conflict case the
returned directory state is unchanged (no record created). -/
theorem signup_conflict_order (key : String) (db : DB) (user_data : UserCreate)
    (salt : Nat) (now : Int) :
    ((db.findByUsername user_data.username).isSome = true →
      signup key db user_data salt now =
        (.error (.http 400 "Username already registered"), db)) ∧
    (db.findByUsername user_data.username = none →
      (db.findByEmail user_data.email).isSome = true →
      signup key db user_data salt now =
        (.error (.http 400 "Email already registered"), db)) := by
  constructor
  · intro h
    unfold signup
    rw [if_pos h]
  · intro h1 h2
    unfold signup
    rw [if_neg (by simp [h1]), if_pos h2]

/-- Claim C6, witness: against the directory holding alice/a@x.com, a
signup reusing the username collides on username; one reusing only the
email collides on email; the directory is returned unchanged both
times. -/
theorem signup_conflict_order_witness :
    signup "k" sampleDB ⟨"alice", "b@x.com", "pw"⟩ 7 0 =
      (.error (.http 400 "Username already registered"), sampleDB) ∧
    signup "k" sampleDB ⟨"bob", "a@x.com", "pw"⟩ 7 0 =
      (.error (.http 400 "Email already registered"), sampleDB) :=
  ⟨(signup_conflict_order "k" sampleDB ⟨"alice", "b@x.com", "pw"⟩ 7 0).1
      (by decide),
   (signup_conflict_order "k" sampleDB ⟨"bob", "a@x.com", "pw"⟩ 7 0).2
      (by decide) (by decide)⟩

/-- Claim C7: for every password, verification succeeds against its own
hash, and hashing the same password under two distinct salts (two
separate calls draw distinct random salts) produces different stored
hashes, both of which still verify. -/
theorem hash_verify_round_trip (password : String) (salt1 salt2 : Nat)
    (h : salt1 ≠ salt2) :
    verify_password password (hash_password salt1 password) = .ok true ∧
    verify_password password (hash_password salt2 password) = .ok true ∧
    hash_password salt1 password ≠ hash_password salt2 password := by
  refine ⟨?_, ?_, ?_⟩
  · simp [verify_password, hash_password]
  · simp [verify_password, hash_password]
  · intro hcontra
    simp only [hash_password, StoredHash.bcrypt.injEq] at hcontra
    exact h hcontra.1

/-- Claim C7, witness: password "pw1" under salts 1 and 2. -/
theorem hash_verify_round_trip_witness :
    verify_password "pw1" (hash_password 1 "pw1") = .ok true ∧
    verify_password "pw1" (hash_password 2 "pw1") = .ok true ∧
    hash_password 1 "pw1" ≠ hash_password 2 "pw1" :=
  hash_verify_round_trip "pw1" 1 2 (by decide)

/-- Claim C8, counterexample: verifying against a malformed stored hash
does NOT return false — passlib's `CryptContext.verify` raises
`UnknownHashError`, which propagates to the caller. -/
theorem verify_password_malformed_counterexample :
    verify_password "secret" (.malformed "not-a-hash") =
      .error .unknownHash ∧
    verify_password "secret" (.malformed "not-a-hash") ≠ .ok false := by
  decide

/-- Claim C8, amended: for every secret and every malformed stored
hash, `verify_password` raises (propagates passlib's
`UnknownHashError`) rather than returning false; so the outcome IS
distinguishable from a wrong password, which yields false. -/
theorem verify_password_malformed_raises (plain s : String) :
    verify_password plain (.malformed s) = .error .unknownHash := rfl

/-- Claim C9: neither the authentication gate nor POST /auth/logout
mutates server-side state: the directory state coming out of the logout
route equals the one going in, and any token authenticates against the
post-logout state exactly as it did before (same result at every time,
so validity still ends only at the token's own expiry; no revocation,
issuance, or extension). -/
theorem logout_gate_stateless (key : String) (db : DB) (tok : Token)
    (now : Int) (tok2 : Token) (now2 : Int) :
    (logoutRoute key db tok now).2 = db ∧
    get_current_user key (logoutRoute key db tok now).2 tok2 now2 =
      get_current_user key db tok2 now2 := by
  have h2 : (logoutRoute key db tok now).2 = db := by
    unfold logoutRoute
    cases get_current_user key db tok now <;> rfl
  exact ⟨h2, by rw [h2]⟩

/-- Claim C10, counterexample: a correctly signed, unexpired token whose
`sub` claim is the non-decimal string "abc" makes `verify_token` raise
`ValueError` (from `int(user_id)`, not caught by the
`except JWTError` clause) instead of returning claims or None. -/
theorem verify_token_nondecimal_sub_counterexample :
    verify_token "k"
        (jwtEncode ⟨some "abc", some "alice", some 100⟩ "k" ALGORITHM) 0 =
      .error .valueError := by
  decide

/-- Claim C10, amended: `verify_token` returns a claims dict or None
for every token EXCEPT a token that decodes successfully and carries a
`sub` claim that is not a decimal-integer string — there `int(sub)`
raises `ValueError`, which escapes to the caller; in particular a
decode failure yields None, a missing `sub` yields None, and a missing
`username` claim is harmless (claims with username None). -/
theorem verify_token_cases (key : String) (tok : Token) (now : Int) :
    (∀ e, jwtDecode tok key [ALGORITHM] now = .error e →
      verify_token key tok now = .ok none) ∧
    (∀ p, jwtDecode tok key [ALGORITHM] now = .ok p →
      (p.sub = none → verify_token key tok now = .ok none) ∧
      (∀ s, p.sub = some s →
        (pyInt s = none → verify_token key tok now = .error .valueError) ∧
        (∀ n, pyInt s = some n →
          verify_token key tok now = .ok (some ⟨n, p.username⟩)))) := by
  constructor
  · intro e he
    unfold verify_token
    simp only [he]
  · intro p hp
    refine ⟨?_, ?_⟩
    · intro hs
      unfold verify_token
      simp only [hp, hs]
    · intro s hs
      refine ⟨?_, ?_⟩
      · intro hn
        unfold verify_token
        simp only [hp, hs, hn]
      · intro n hn
        unfold verify_token
        simp only [hp, hs, hn]

/-- Claim C10, witness: the ValueError case at a signed unexpired token
with `sub = "12x"`, and the None-username case at one with a decimal
`sub` and no `username` claim. -/
theorem verify_token_cases_witness :
    verify_token "kk" (jwtEncode ⟨some "12x", some "bob", some 50⟩ "kk" ALGORITHM) 3 =
      .error .valueError ∧
    verify_token "kk" (jwtEncode ⟨some "7", none, some 50⟩ "kk" ALGORITHM) 3 =
      .ok (some ⟨(7 : Int), none⟩) :=
  ⟨((verify_token_cases "kk"
        (jwtEncode ⟨some "12x", some "bob", some 50⟩ "kk" ALGORITHM) 3).2
      ⟨some "12x", some "bob", some 50⟩ (by decide)).2 "12x" rfl |>.1 (by decide),
   ((verify_token_cases "kk"
        (jwtEncode ⟨some "7", none, some 50⟩ "kk" ALGORITHM) 3).2
      ⟨some "7", none, some 50⟩ (by decide)).2 "7" rfl |>.2 7 (by decide)⟩

end AuthSpec
